import Mathlib

set_option autoImplicit false

/-!
Shallow embedding of the museo monitor (src/monitor.py).

The program watches one URL, extracts a single value via a CSS selector or a
regex capture group, compares its hash with persisted state, and emits
notifications.  We embed the two core actions `run_check` and
`run_daily_summary` as pure functions over an explicit persisted store
(`Option MonitorState`, with none meaning the state file does not exist) that
return the outcome taken, the new store, and the ordered list of side effects
performed (state load, pdf generation, state save, email delivery, log line).

External collaborators are parameters:
- the HTTP fetch result is passed in as an `Except String String`
  (error message or page html), modelling `fetch_content`;
- BeautifulSoup parsing plus `select_one(sel).get_text(strip=True)` is an
  opaque function `selectText : String → String → Option String`
  (none when no element matches the selector; the returned text is the
  already-stripped text, exactly the value the source inspects);
- `hashlib.sha256(...).hexdigest()` is an opaque function
  `hashFn : String → String`.

Python regular expressions are embedded as a small AST (`Regex`) covering the
constructs the claims exercise (literal characters, the dot, sequencing,
numbered capture groups), with a matcher faithful to `re.search` semantics for
that fragment, parameterised by the `re.IGNORECASE` and `re.DOTALL` flags the
source passes.
-/

namespace Monitor

/-- Regex abstract syntax: the fragment of Python patterns we embed.
Group nodes carry their Python group number (order of opening parens). -/
inductive Regex where
  | char (c : Char)
  | dot
  | eps
  | seq (a b : Regex)
  | group (n : Nat) (a : Regex)
deriving DecidableEq, Repr

/-- Character comparison used by the matcher: with `re.IGNORECASE` the two
characters are compared case-folded, otherwise literally. -/
def charEq (ignoreCase : Bool) (p x : Char) : Bool :=
  if ignoreCase then p.toLower == x.toLower else p == x

/-- Anchored match of a pattern against a prefix of the input.  Returns the
remaining input after the match together with the captured groups (group
number paired with captured characters), or none if no match starts here.
With `dotAll` (re.DOTALL) the dot also matches a line terminator. -/
def matchRe (ic dotAll : Bool) : Regex → List Char → Option (List Char × List (Nat × List Char))
  | .char _, [] => none
  | .char c, x :: rest => if charEq ic c x then some (rest, []) else none
  | .dot, [] => none
  | .dot, x :: rest => if dotAll || x != '\n' then some (rest, []) else none
  | .eps, s => some (s, [])
  | .seq a b, s =>
    match matchRe ic dotAll a s with
    | none => none
    | some (s1, g1) =>
      match matchRe ic dotAll b s1 with
      | none => none
      | some (s2, g2) => some (s2, g1 ++ g2)
  | .group n a, s =>
    match matchRe ic dotAll a s with
    | none => none
    | some (s1, g) => some (s1, (n, s.take (s.length - s1.length)) :: g)

/-- `re.search`: try an anchored match at each position, leftmost first;
return the captured groups of the first successful match. -/
def reSearch (ic dotAll : Bool) (r : Regex) : List Char → Option (List (Nat × List Char))
  | [] => (matchRe ic dotAll r []).map (fun p => p.2)
  | x :: rest =>
    match matchRe ic dotAll r (x :: rest) with
    | some (_, g) => some g
    | none => reSearch ic dotAll r rest

/-- Look up the text captured by group `n` (Python `m.group(n)`). -/
def getGroup (gs : List (Nat × List Char)) (n : Nat) : Option (List Char) :=
  (gs.find? (fun p => p.1 == n)).map (fun p => p.2)

/-- Number of capture groups a pattern declares. -/
def countGroups : Regex → Nat
  | .char _ => 0
  | .dot => 0
  | .eps => 0
  | .seq a b => countGroups a + countGroups b
  | .group _ a => countGroups a + 1

/-- Configuration read from the environment at program start:
MONITOR_URL, MONITOR_CSS_SELECTOR (empty string when unset, matching Python
string truthiness), MONITOR_REGEX_CAPTURE (embedded as an optional `Regex`
AST, none when unset). -/
structure Config where
  url : String
  cssSelector : String
  regexCapture : Option Regex
deriving Repr

/-- The distinct failure exits of `extract_value` (each a raised `ValueError`,
except `regexMissingGroupOne` which models the `IndexError` that
`m.group(1)` raises when the pattern declares no group 1). -/
inductive ExtractErr where
  | selectorNotFound (sel : String)
  | selectorEmptyText (sel : String)
  | regexNoGroup
  | regexMissingGroupOne
  | noRuleConfigured
deriving DecidableEq, Repr

/-- Exception message carried by each extraction failure (the f-string
arguments of the `raise` statements; the regex messages omit the pattern
text since patterns are embedded as ASTs). -/
def extractErrMsg : ExtractErr → String
  | .selectorNotFound sel => "CSS selector not found: " ++ sel
  | .selectorEmptyText sel => "CSS selector found but empty text: " ++ sel
  | .regexNoGroup => "Regex capture found no group"
  | .regexMissingGroupOne => "no such group"
  | .noRuleConfigured => "You must set either MONITOR_CSS_SELECTOR or MONITOR_REGEX_CAPTURE"

/-- Python `str.strip()`: drop leading and trailing whitespace characters
(restricted to the ASCII whitespace `Char.isWhitespace` recognises; none of
the claims turns on the exotic whitespace code points Python also strips). -/
def pyStrip (s : String) : String :=
  String.mk (((s.data.dropWhile Char.isWhitespace).reverse.dropWhile Char.isWhitespace).reverse)

/-- `extract_value(html)`: CSS selector takes priority when set; otherwise the
regex capture; otherwise a configuration `ValueError`.  The selector branch
checks the stripped node text for emptiness; the regex branch searches with
IGNORECASE and DOTALL, raises when there is no match or group 1 is falsy
(empty), and otherwise returns group 1 stripped. -/
def extract_value (cfg : Config) (selectText : String → String → Option String)
    (html : String) : Except ExtractErr String :=
  if cfg.cssSelector ≠ "" then
    match selectText cfg.cssSelector html with
    | none => .error (.selectorNotFound cfg.cssSelector)
    | some value =>
      if value = "" then .error (.selectorEmptyText cfg.cssSelector) else .ok value
  else
    match cfg.regexCapture with
    | some pat =>
      match reSearch true true pat html.data with
      | none => .error .regexNoGroup
      | some gs =>
        match getGroup gs 1 with
        | none => .error .regexMissingGroupOne
        | some v => if v = [] then .error .regexNoGroup else .ok (pyStrip (String.mk v))
    | none => .error .noRuleConfigured

/-- Persisted monitor state (the JSON record in MONITOR_STATE_FILE). -/
structure MonitorState where
  last_value : Option String
  last_value_hash : Option String
  last_change_ts : Option String
  changes_today : Bool
  last_summary_day : Option String
deriving DecidableEq, Repr

/-- `load_state()`: the stored record when the state file exists, otherwise
the fresh record with every field empty. -/
def load_state : Option MonitorState → MonitorState
  | some s => s
  | none => ⟨none, none, none, false, none⟩

/-- Ordered side effects an action performs, in program order. -/
inductive Event where
  | loadState
  | genPdf (old : Option String) (nv : String) (url : String)
  | saveState (s : MonitorState)
  | sendEmail (subject : String) (body : String) (withAttachment : Bool)
  | logLine (msg : String)
deriving DecidableEq, Repr

/-- What went wrong inside the try-block of `run_check`: the upstream fetch
raised, or `extract_value` raised. -/
inductive CheckFailure where
  | fetchFailure (msg : String)
  | extractFailure (e : ExtractErr)
deriving DecidableEq, Repr

/-- Exception message of a check failure, as interpolated into the log line. -/
def failureMsg : CheckFailure → String
  | .fetchFailure m => m
  | .extractFailure e => extractErrMsg e

/-- The branch `run_check` takes: the no-change early return, the
change-detected path (carrying old and new value), or the caught
fetch/extract failure. -/
inductive CheckOutcome where
  | noChange
  | changed (old : Option String) (nv : String)
  | extractionFailed (e : CheckFailure)
deriving DecidableEq, Repr

/-- The branch `run_daily_summary` takes. -/
inductive SummaryOutcome where
  | alreadySent
  | skippedChangesOccurred
  | sent
deriving DecidableEq, Repr

/-- Python str() of an optional value as interpolated by f-strings:
None prints as the text None. -/
def pyStr : Option String → String
  | none => "None"
  | some s => s

/-- Body of the change-alert email assembled in `run_check`. -/
def changeBody (url : String) (old : Option String) (nv : String) (ts : String) : String :=
  "A change was detected.\n\nURL: " ++ url ++ "\nOld value: " ++ pyStr old ++
    "\nNew value: " ++ nv ++ "\nTime (UTC): " ++ ts ++ "\n"

/-- Body of the daily no-changes email assembled in `run_daily_summary`. -/
def summaryBody (today url : String) : String :=
  "No changes detected for " ++ today ++ " (UTC).\nURL: " ++ url ++ "\n"

/-- File name of the generated change report (timestamp-derived). -/
def pdfName (ts : String) : String := "change_" ++ ts ++ ".pdf"

/-- `run_check()`.  `Except.error msg` models `raise SystemExit(msg)`
(process terminates with exit status 1 before any further effect); a normal
return is `Except.ok (outcome, new store, effect trace)`. -/
def run_check (cfg : Config) (store : Option MonitorState)
    (fetched : Except String String)
    (selectText : String → String → Option String)
    (hashFn : String → String) (now : String) :
    Except String (CheckOutcome × Option MonitorState × List Event) :=
  if cfg.url = "" then
    .error "MONITOR_URL is required."
  else
    let state := load_state store
    match fetched with
    | .error e =>
      .ok (.extractionFailed (.fetchFailure e), store,
        [.loadState, .logLine ("ERROR during fetch/extract: " ++ e)])
    | .ok html =>
      match extract_value cfg selectText html with
      | .error ex =>
        .ok (.extractionFailed (.extractFailure ex), store,
          [.loadState, .logLine ("ERROR during fetch/extract: " ++ extractErrMsg ex)])
      | .ok current_value =>
        let current_hash := hashFn current_value
        if state.last_value_hash = some current_hash then
          .ok (.noChange, store,
            [.loadState, .logLine ("No change. Value: " ++ current_value)])
        else
          let old_value := state.last_value
          let state2 : MonitorState :=
            ⟨some current_value, some current_hash, some now, true, state.last_summary_day⟩
          .ok (.changed old_value current_value, some state2,
            [.loadState,
             .genPdf old_value current_value cfg.url,
             .saveState state2,
             .sendEmail "Change detected" (changeBody cfg.url old_value current_value now) true,
             .logLine ("CHANGE detected. Old: " ++ pyStr old_value ++ " -> New: " ++
               current_value ++ ". PDF: " ++ pdfName now)])

/-- `run_daily_summary(force)`: skip when already sent today (unless forced);
otherwise either silently reset the changes-occurred flag, or send the
no-changes email and record the summary day. -/
def run_daily_summary (cfg : Config) (store : Option MonitorState)
    (today : String) (force : Bool) :
    SummaryOutcome × Option MonitorState × List Event :=
  let state := load_state store
  if state.last_summary_day = some today ∧ force = false then
    (.alreadySent, store,
      [.loadState, .logLine "Daily summary already sent today; skipping."])
  else if state.changes_today then
    let state2 : MonitorState :=
      ⟨state.last_value, state.last_value_hash, state.last_change_ts, false, some today⟩
    (.skippedChangesOccurred, some state2,
      [.loadState,
       .logLine "Changes occurred today; no \x27no changes detected\x27 email needed.",
       .saveState state2])
  else
    let state2 : MonitorState :=
      ⟨state.last_value, state.last_value_hash, state.last_change_ts, false, some today⟩
    (.sent, some state2,
      [.loadState,
       .sendEmail "No changes detected" (summaryBody today cfg.url) false,
       .logLine "Daily summary sent: No changes detected.",
       .saveState state2])

/-- Process exit status of a check invocation: SystemExit carries status 1,
every other path returns normally (status 0). -/
def checkExitCode {α : Type} : Except String α → Nat
  | .error _ => 1
  | .ok _ => 0

/-- Is this event a state-file write? -/
def isSave : Event → Bool
  | .saveState _ => true
  | _ => false

/-- Is this event a notification delivery attempt? -/
def isNotify : Event → Bool
  | .sendEmail _ _ _ => true
  | _ => false

/-- Every notification delivery attempt in the trace is preceded by some
state-file write. -/
def notifyAfterSave (tr : List Event) : Prop :=
  ∀ j : Fin tr.length, isNotify (tr.get j) = true →
    ∃ i : Fin tr.length, i.val < j.val ∧ isSave (tr.get i) = true

instance (tr : List Event) : Decidable (notifyAfterSave tr) := by
  unfold notifyAfterSave
  infer_instance

/-- `body` has `piece` as a contiguous substring. -/
def containsPiece (body piece : String) : Prop := ∃ a b : String, body = a ++ piece ++ b

/-- Two character lists are equal up to case folding. -/
def lowEq (s t : List Char) : Prop := s.map Char.toLower = t.map Char.toLower

/-- Anchored matching with IGNORECASE and DOTALL is case-insensitive: on
case-fold-equal inputs it fails on both or succeeds on both, leaving
case-fold-equal remainders. -/
theorem matchRe_lowEq (pat : Regex) : ∀ s t : List Char, lowEq s t →
    (matchRe true true pat s = none ∧ matchRe true true pat t = none) ∨
    (∃ s1 g1 t1 g2, matchRe true true pat s = some (s1, g1) ∧
      matchRe true true pat t = some (t1, g2) ∧ lowEq s1 t1) := by
  induction pat with
  | char c =>
    intro s t h
    cases s with
    | nil =>
      cases t with
      | nil => exact Or.inl ⟨rfl, rfl⟩
      | cons y ys => simp [lowEq] at h
    | cons x xs =>
      cases t with
      | nil => simp [lowEq] at h
      | cons y ys =>
        simp only [lowEq, List.map_cons, List.cons.injEq] at h
        obtain ⟨hxy, hxs⟩ := h
        by_cases hc : charEq true c x
        · have hc2 : charEq true c y := by
            simp only [charEq, if_pos rfl] at hc ⊢
            simp_all
          exact Or.inr ⟨xs, [], ys, [], by simp [matchRe, hc], by simp [matchRe, hc2], hxs⟩
        · have hc2 : ¬charEq true c y := by
            simp only [charEq, if_pos rfl] at hc ⊢
            simp_all
          exact Or.inl ⟨by simp [matchRe, hc], by simp [matchRe, hc2]⟩
  | dot =>
    intro s t h
    cases s with
    | nil =>
      cases t with
      | nil => exact Or.inl ⟨rfl, rfl⟩
      | cons y ys => simp [lowEq] at h
    | cons x xs =>
      cases t with
      | nil => simp [lowEq] at h
      | cons y ys =>
        simp only [lowEq, List.map_cons, List.cons.injEq] at h
        exact Or.inr ⟨xs, [], ys, [], by simp [matchRe], by simp [matchRe], h.2⟩
  | eps =>
    intro s t h
    exact Or.inr ⟨s, [], t, [], rfl, rfl, h⟩
  | seq a b iha ihb =>
    intro s t h
    rcases iha s t h with ⟨ha1, ha2⟩ | ⟨s1, g1, t1, g2, e1, e2, h1⟩
    · exact Or.inl ⟨by simp [matchRe, ha1], by simp [matchRe, ha2]⟩
    · rcases ihb s1 t1 h1 with ⟨hb1, hb2⟩ | ⟨s2, g3, t2, g4, e3, e4, h2⟩
      · exact Or.inl ⟨by simp [matchRe, e1, hb1], by simp [matchRe, e2, hb2]⟩
      · exact Or.inr ⟨s2, g1 ++ g3, t2, g2 ++ g4,
          by simp [matchRe, e1, e3], by simp [matchRe, e2, e4], h2⟩
  | group n a iha =>
    intro s t h
    rcases iha s t h with ⟨ha1, ha2⟩ | ⟨s1, g1, t1, g2, e1, e2, h1⟩
    · exact Or.inl ⟨by simp [matchRe, ha1], by simp [matchRe, ha2]⟩
    · exact Or.inr ⟨s1, (n, s.take (s.length - s1.length)) :: g1,
        t1, (n, t.take (t.length - t1.length)) :: g2,
        by simp [matchRe, e1], by simp [matchRe, e2], h1⟩

/-- Searching with IGNORECASE and DOTALL finds a match in one input exactly
when it finds one in any case-fold-equal input. -/
theorem reSearch_lowEq (pat : Regex) : ∀ s t : List Char, lowEq s t →
    (reSearch true true pat s).isSome = (reSearch true true pat t).isSome := by
  intro s
  induction s with
  | nil =>
    intro t h
    have ht : t = [] := by
      cases t with
      | nil => rfl
      | cons y ys => simp [lowEq] at h
    subst ht
    rfl
  | cons x xs ih =>
    intro t h
    cases t with
    | nil => simp [lowEq] at h
    | cons y ys =>
      have hth : lowEq (x :: xs) (y :: ys) := h
      simp only [lowEq, List.map_cons, List.cons.injEq] at h
      rcases matchRe_lowEq pat (x :: xs) (y :: ys) hth with ⟨h1, h2⟩ | ⟨s1, g1, t1, g2, e1, e2, _⟩
      · simp only [reSearch, h1, h2]
        exact ih ys h.2
      · simp [reSearch, e1, e2]

/-- A trace without delivery attempts trivially delivers only after saving. -/
theorem notifyAfterSave_of_no_notify (tr : List Event) (h : tr.any isNotify = false) :
    notifyAfterSave tr := by
  intro j hj
  exfalso
  have hmem : tr.get j ∈ tr := List.get_mem tr j.1 j.2
  have := (List.any_eq_false.mp h) _ hmem
  simp_all

/-- The effect trace of the change-detected path saves the state (position 2)
before attempting delivery (position 3). -/
theorem notifyAfterSave_changed_trace (o : Option String) (v u s b m : String)
    (sv : MonitorState) (w : Bool) :
    notifyAfterSave [Event.loadState, Event.genPdf o v u, Event.saveState sv,
      Event.sendEmail s b w, Event.logLine m] := by
  rintro ⟨jv, hjv⟩ hj
  have hjv5 : jv < 5 := hjv
  refine ⟨⟨2, by simp⟩, ?_, rfl⟩
  interval_cases jv
  · exact Bool.noConfusion hj
  · exact Bool.noConfusion hj
  · exact Bool.noConfusion hj
  · exact Nat.le.refl
  · exact Bool.noConfusion hj

/-- Inversion: a check invocation that reports a change ends with exactly the
state record the change branch builds. -/
theorem run_check_changed_state (cfg : Config) (store : Option MonitorState)
    (fetched : Except String String) (selectText : String → String → Option String)
    (hashFn : String → String) (now : String)
    (o : Option String) (v : String) (st : Option MonitorState) (tr : List Event)
    (h : run_check cfg store fetched selectText hashFn now =
      Except.ok (CheckOutcome.changed o v, st, tr)) :
    st = some ⟨some v, some (hashFn v), some now, true,
      (load_state store).last_summary_day⟩ := by
  by_cases hu : cfg.url = ""
  · unfold run_check at h
    rw [if_pos hu] at h
    cases h
  · unfold run_check at h
    rw [if_neg hu] at h
    cases fetched with
    | error e => simp at h
    | ok html =>
      cases hev : extract_value cfg selectText html with
      | error ex =>
        simp only [hev] at h
        simp at h
      | ok cv =>
        simp only [hev] at h
        by_cases hh : (load_state store).last_value_hash = some (hashFn cv)
        · rw [if_pos hh] at h
          simp at h
        · rw [if_neg hh] at h
          simp only [Except.ok.injEq, Prod.mk.injEq, CheckOutcome.changed.injEq] at h
          obtain ⟨⟨ho, hv⟩, hst, htr⟩ := h
          subst hv
          exact hst.symm

/-- Concrete configuration used by witnesses: a URL and a CSS selector. -/
def cfg1 : Config := ⟨"http://example.com", "#month", none⟩

/-- Witness stand-in for the BeautifulSoup collaborator: the selected node
text is April. -/
def sel1 : String → String → Option String := fun _ _ => some "April"

/-- Witness stand-in for the hash collaborator (the tracker logic only
compares hash outputs, so any function exercises it). -/
def hash1 : String → String := fun s => s

/-- A persisted state as after observing March. -/
def st1 : MonitorState := ⟨some "March", some "March", some "2025-03-01T00:00:00Z", false, none⟩

/-- C1: when the stored hash differs from (or is absent relative to) the hash
of the freshly extracted value, Check reports Changed carrying the old stored
value and the new value, stores the new value, its hash, the change timestamp
and changes_today = true, persists exactly that record, and sends a change
email whose body contains the old value, the new value, the timestamp and the
target URL. -/
theorem check_change_updates_state_and_notifies
    (cfg : Config) (store : Option MonitorState) (html v : String)
    (selectText : String → String → Option String) (hashFn : String → String) (now : String)
    (hurl : cfg.url ≠ "")
    (hex : extract_value cfg selectText html = Except.ok v)
    (hdiff : (load_state store).last_value_hash ≠ some (hashFn v)) :
    run_check cfg store (Except.ok html) selectText hashFn now =
      Except.ok (CheckOutcome.changed (load_state store).last_value v,
        some ⟨some v, some (hashFn v), some now, true, (load_state store).last_summary_day⟩,
        [Event.loadState,
         Event.genPdf (load_state store).last_value v cfg.url,
         Event.saveState ⟨some v, some (hashFn v), some now, true, (load_state store).last_summary_day⟩,
         Event.sendEmail "Change detected"
           (changeBody cfg.url (load_state store).last_value v now) true,
         Event.logLine ("CHANGE detected. Old: " ++ pyStr (load_state store).last_value ++
           " -> New: " ++ v ++ ". PDF: " ++ pdfName now)]) ∧
    containsPiece (changeBody cfg.url (load_state store).last_value v now) cfg.url ∧
    containsPiece (changeBody cfg.url (load_state store).last_value v now)
      (pyStr (load_state store).last_value) ∧
    containsPiece (changeBody cfg.url (load_state store).last_value v now) v ∧
    containsPiece (changeBody cfg.url (load_state store).last_value v now) now := by
  refine ⟨?_,
    ⟨"A change was detected.\n\nURL: ", "\nOld value: " ++ pyStr (load_state store).last_value ++
      "\nNew value: " ++ v ++ "\nTime (UTC): " ++ now ++ "\n", ?_⟩,
    ⟨"A change was detected.\n\nURL: " ++ cfg.url ++ "\nOld value: ",
      "\nNew value: " ++ v ++ "\nTime (UTC): " ++ now ++ "\n", ?_⟩,
    ⟨"A change was detected.\n\nURL: " ++ cfg.url ++ "\nOld value: " ++
      pyStr (load_state store).last_value ++ "\nNew value: ",
      "\nTime (UTC): " ++ now ++ "\n", ?_⟩,
    ⟨"A change was detected.\n\nURL: " ++ cfg.url ++ "\nOld value: " ++
      pyStr (load_state store).last_value ++ "\nNew value: " ++ v ++ "\nTime (UTC): ",
      "\n", ?_⟩⟩
  · unfold run_check
    rw [if_neg hurl]
    simp only [hex]
    rw [if_neg hdiff]
  all_goals simp [changeBody, String.append_assoc]

/-- C1 witness: concrete change from March to April. -/
theorem check_change_witness :
    (cfg1.url ≠ "") ∧ extract_value cfg1 sel1 "<html></html>" = Except.ok "April" ∧
    (load_state (some st1)).last_value_hash ≠ some (hash1 "April") ∧
    run_check cfg1 (some st1) (Except.ok "<html></html>") sel1 hash1 "2025-04-01T00:00:00Z" =
      Except.ok (CheckOutcome.changed (some "March") "April",
        some ⟨some "April", some "April", some "2025-04-01T00:00:00Z", true, none⟩,
        [Event.loadState,
         Event.genPdf (some "March") "April" "http://example.com",
         Event.saveState ⟨some "April", some "April", some "2025-04-01T00:00:00Z", true, none⟩,
         Event.sendEmail "Change detected"
           (changeBody "http://example.com" (some "March") "April" "2025-04-01T00:00:00Z") true,
         Event.logLine ("CHANGE detected. Old: " ++ pyStr (some "March") ++
           " -> New: " ++ "April" ++ ". PDF: " ++ pdfName "2025-04-01T00:00:00Z")]) :=
  ⟨by decide, rfl, by decide,
    (check_change_updates_state_and_notifies cfg1 (some st1) "<html></html>" "April" sel1 hash1
      "2025-04-01T00:00:00Z" (by decide) rfl (by decide)).1⟩

/-- C2: when the stored hash equals the hash of the freshly extracted value,
Check reports NoChange, returns the store untouched, and its effect trace
contains no state save and no delivery attempt. -/
theorem check_no_change_leaves_state
    (cfg : Config) (store : Option MonitorState) (html v : String)
    (selectText : String → String → Option String) (hashFn : String → String) (now : String)
    (hurl : cfg.url ≠ "")
    (hex : extract_value cfg selectText html = Except.ok v)
    (hsame : (load_state store).last_value_hash = some (hashFn v)) :
    run_check cfg store (Except.ok html) selectText hashFn now =
      Except.ok (CheckOutcome.noChange, store,
        [Event.loadState, Event.logLine ("No change. Value: " ++ v)]) ∧
    [Event.loadState, Event.logLine ("No change. Value: " ++ v)].any isSave = false ∧
    [Event.loadState, Event.logLine ("No change. Value: " ++ v)].any isNotify = false := by
  refine ⟨?_, rfl, rfl⟩
  unfold run_check
  rw [if_neg hurl]
  simp only [hex]
  rw [if_pos hsame]

/-- C2 witness: concrete repeat observation of April. -/
theorem check_no_change_witness :
    (cfg1.url ≠ "") ∧ extract_value cfg1 sel1 "<html></html>" = Except.ok "April" ∧
    (load_state (some ⟨some "April", some "April", some "2025-03-01T00:00:00Z", false, none⟩)).last_value_hash
      = some (hash1 "April") ∧
    run_check cfg1 (some ⟨some "April", some "April", some "2025-03-01T00:00:00Z", false, none⟩)
        (Except.ok "<html></html>") sel1 hash1 "2025-04-01T00:00:00Z" =
      Except.ok (CheckOutcome.noChange,
        some ⟨some "April", some "April", some "2025-03-01T00:00:00Z", false, none⟩,
        [Event.loadState, Event.logLine ("No change. Value: " ++ "April")]) :=
  ⟨by decide, rfl, by decide,
    (check_no_change_leaves_state cfg1
      (some ⟨some "April", some "April", some "2025-03-01T00:00:00Z", false, none⟩)
      "<html></html>" "April" sel1 hash1 "2025-04-01T00:00:00Z" (by decide) rfl (by decide)).1⟩

/-- C3: against the empty initial state (no persisted record) every
successfully extracted value yields Changed with absent old value and the
new value stored; the absent stored hash never equals any hash string. -/
theorem first_run_baseline_changed
    (cfg : Config) (html v : String)
    (selectText : String → String → Option String) (hashFn : String → String) (now : String)
    (hurl : cfg.url ≠ "")
    (hex : extract_value cfg selectText html = Except.ok v) :
    run_check cfg none (Except.ok html) selectText hashFn now =
      Except.ok (CheckOutcome.changed none v,
        some ⟨some v, some (hashFn v), some now, true, none⟩,
        [Event.loadState,
         Event.genPdf none v cfg.url,
         Event.saveState ⟨some v, some (hashFn v), some now, true, none⟩,
         Event.sendEmail "Change detected" (changeBody cfg.url none v now) true,
         Event.logLine ("CHANGE detected. Old: " ++ pyStr none ++ " -> New: " ++ v ++
           ". PDF: " ++ pdfName now)]) ∧
    (∀ h : String, (load_state none).last_value_hash ≠ some h) := by
  constructor
  · unfold run_check
    rw [if_neg hurl]
    simp only [hex]
    rw [if_neg (by simp [load_state])]
    rfl
  · intro h
    simp [load_state]

/-- C3 witness: first run observing April, including an empty-looking but
non-empty value check via the spec scenario value. -/
theorem first_run_baseline_witness :
    (cfg1.url ≠ "") ∧ extract_value cfg1 sel1 "<html></html>" = Except.ok "April" ∧
    run_check cfg1 none (Except.ok "<html></html>") sel1 hash1 "2025-04-01T00:00:00Z" =
      Except.ok (CheckOutcome.changed none "April",
        some ⟨some "April", some "April", some "2025-04-01T00:00:00Z", true, none⟩,
        [Event.loadState,
         Event.genPdf none "April" "http://example.com",
         Event.saveState ⟨some "April", some "April", some "2025-04-01T00:00:00Z", true, none⟩,
         Event.sendEmail "Change detected"
           (changeBody "http://example.com" none "April" "2025-04-01T00:00:00Z") true,
         Event.logLine ("CHANGE detected. Old: " ++ pyStr none ++ " -> New: " ++ "April" ++
           ". PDF: " ++ pdfName "2025-04-01T00:00:00Z")]) :=
  ⟨by decide, rfl,
    (first_run_baseline_changed cfg1 "<html></html>" "April" sel1 hash1
      "2025-04-01T00:00:00Z" (by decide) rfl).1⟩

/-- C4: when the fetch or the extraction fails, Check returns the store
untouched with an ExtractionFailed outcome carrying the error, saving nothing
and delivering nothing; that outcome differs from NoChange and from every
Changed outcome. -/
theorem check_failure_leaves_state
    (cfg : Config) (store : Option MonitorState)
    (selectText : String → String → Option String) (hashFn : String → String) (now : String)
    (hurl : cfg.url ≠ "") :
    (∀ e : String, run_check cfg store (Except.error e) selectText hashFn now =
      Except.ok (CheckOutcome.extractionFailed (CheckFailure.fetchFailure e), store,
        [Event.loadState, Event.logLine ("ERROR during fetch/extract: " ++ e)])) ∧
    (∀ html ex, extract_value cfg selectText html = Except.error ex →
      run_check cfg store (Except.ok html) selectText hashFn now =
        Except.ok (CheckOutcome.extractionFailed (CheckFailure.extractFailure ex), store,
          [Event.loadState, Event.logLine ("ERROR during fetch/extract: " ++ extractErrMsg ex)])) ∧
    (∀ f o nv, CheckOutcome.extractionFailed f ≠ CheckOutcome.noChange ∧
      CheckOutcome.extractionFailed f ≠ CheckOutcome.changed o nv) ∧
    (∀ e : String,
      [Event.loadState, Event.logLine ("ERROR during fetch/extract: " ++ e)].any isSave = false ∧
      [Event.loadState, Event.logLine ("ERROR during fetch/extract: " ++ e)].any isNotify = false) := by
  refine ⟨?_, ?_, ?_, fun e => ⟨rfl, rfl⟩⟩
  · intro e
    unfold run_check
    rw [if_neg hurl]
  · intro html ex hex
    unfold run_check
    rw [if_neg hurl]
    simp only [hex]
  · intro f o nv
    exact ⟨by simp, by simp⟩

/-- C4 witness: a concrete fetch failure and a concrete selector miss, each
leaving the March state untouched. -/
theorem check_failure_witness :
    (cfg1.url ≠ "") ∧
    run_check cfg1 (some st1) (Except.error "connection refused") sel1 hash1 "T" =
      Except.ok (CheckOutcome.extractionFailed (CheckFailure.fetchFailure "connection refused"),
        some st1,
        [Event.loadState, Event.logLine ("ERROR during fetch/extract: " ++ "connection refused")]) ∧
    extract_value cfg1 (fun _ _ => none) "<html></html>" =
      Except.error (ExtractErr.selectorNotFound "#month") ∧
    run_check cfg1 (some st1) (Except.ok "<html></html>") (fun _ _ => none) hash1 "T" =
      Except.ok (CheckOutcome.extractionFailed
          (CheckFailure.extractFailure (ExtractErr.selectorNotFound "#month")), some st1,
        [Event.loadState, Event.logLine ("ERROR during fetch/extract: " ++
          extractErrMsg (ExtractErr.selectorNotFound "#month"))]) :=
  ⟨by decide,
    (check_failure_leaves_state cfg1 (some st1) sel1 hash1 "T" (by decide)).1 "connection refused",
    rfl,
    (check_failure_leaves_state cfg1 (some st1) (fun _ _ => none) hash1 "T" (by decide)).2.1
      "<html></html>" (ExtractErr.selectorNotFound "#month") rfl⟩

/-- C5: when the summary was already sent on the current UTC day and force is
false, DailySummary answers AlreadySent, returns the store untouched, and its
trace has no save and no delivery; consequently, when the summary day is not
yet today, the first call answers Sent or SkippedChangesOccurred and an
immediate second call on the same day answers AlreadySent. -/
theorem daily_summary_dedup (cfg : Config) (store : Option MonitorState) (today : String) :
    ((load_state store).last_summary_day = some today →
      run_daily_summary cfg store today false =
        (SummaryOutcome.alreadySent, store,
         [Event.loadState, Event.logLine "Daily summary already sent today; skipping."]) ∧
      [Event.loadState, Event.logLine "Daily summary already sent today; skipping."].any isSave
        = false ∧
      [Event.loadState, Event.logLine "Daily summary already sent today; skipping."].any isNotify
        = false) ∧
    ((load_state store).last_summary_day ≠ some today →
      ((run_daily_summary cfg store today false).1 = SummaryOutcome.sent ∨
       (run_daily_summary cfg store today false).1 = SummaryOutcome.skippedChangesOccurred) ∧
      (run_daily_summary cfg (run_daily_summary cfg store today false).2.1 today false).1 =
        SummaryOutcome.alreadySent) := by
  constructor
  · intro h
    refine ⟨?_, rfl, rfl⟩
    unfold run_daily_summary
    rw [if_pos ⟨h, rfl⟩]
  · intro h
    have hguard : ¬((load_state store).last_summary_day = some today ∧ false = false) :=
      fun hc => h hc.1
    by_cases hc : (load_state store).changes_today
    · constructor
      · right
        unfold run_daily_summary
        rw [if_neg hguard, if_pos hc]
      · unfold run_daily_summary
        rw [if_neg hguard, if_pos hc]
        simp [run_daily_summary, load_state]
    · constructor
      · left
        unfold run_daily_summary
        rw [if_neg hguard, if_neg hc]
      · unfold run_daily_summary
        rw [if_neg hguard, if_neg hc]
        simp [run_daily_summary, load_state]

/-- C5 witness: concrete dedup on day D, in both the already-sent case and
the fresh-day two-call case. -/
theorem daily_summary_dedup_witness :
    ((load_state (some ⟨none, none, none, false, some "2025-04-01"⟩)).last_summary_day
      = some "2025-04-01") ∧
    run_daily_summary cfg1 (some ⟨none, none, none, false, some "2025-04-01"⟩) "2025-04-01" false =
      (SummaryOutcome.alreadySent, some ⟨none, none, none, false, some "2025-04-01"⟩,
       [Event.loadState, Event.logLine "Daily summary already sent today; skipping."]) ∧
    ((load_state (some st1)).last_summary_day ≠ some "2025-04-01") ∧
    ((run_daily_summary cfg1 (some st1) "2025-04-01" false).1 = SummaryOutcome.sent ∨
     (run_daily_summary cfg1 (some st1) "2025-04-01" false).1
       = SummaryOutcome.skippedChangesOccurred) ∧
    (run_daily_summary cfg1 (run_daily_summary cfg1 (some st1) "2025-04-01" false).2.1
      "2025-04-01" false).1 = SummaryOutcome.alreadySent :=
  ⟨by decide,
    ((daily_summary_dedup cfg1 (some ⟨none, none, none, false, some "2025-04-01"⟩)
      "2025-04-01").1 (by decide)).1,
    by decide,
    ((daily_summary_dedup cfg1 (some st1) "2025-04-01").2 (by decide)).1,
    ((daily_summary_dedup cfg1 (some st1) "2025-04-01").2 (by decide)).2⟩

/-- C6: with changes_today set and the already-sent guard not firing,
DailySummary answers SkippedChangesOccurred, persists the state with
changes_today cleared and last_summary_day set to today, and delivers
nothing; in particular after a Check that reported Changed on a day whose
summary is still unsent, DailySummary on that day answers
SkippedChangesOccurred and leaves changes_today false. -/
theorem daily_summary_skip_on_changes
    (cfg : Config) (store : Option MonitorState) (today : String) (force : Bool) :
    ((load_state store).changes_today = true →
      ¬((load_state store).last_summary_day = some today ∧ force = false) →
      run_daily_summary cfg store today force =
        (SummaryOutcome.skippedChangesOccurred,
         some ⟨(load_state store).last_value, (load_state store).last_value_hash,
           (load_state store).last_change_ts, false, some today⟩,
         [Event.loadState,
          Event.logLine "Changes occurred today; no \x27no changes detected\x27 email needed.",
          Event.saveState ⟨(load_state store).last_value, (load_state store).last_value_hash,
            (load_state store).last_change_ts, false, some today⟩]) ∧
      [Event.loadState,
       Event.logLine "Changes occurred today; no \x27no changes detected\x27 email needed.",
       Event.saveState ⟨(load_state store).last_value, (load_state store).last_value_hash,
         (load_state store).last_change_ts, false, some today⟩].any isNotify = false) ∧
    (∀ fetched selectText hashFn now o v st tr,
      run_check cfg store fetched selectText hashFn now =
        Except.ok (CheckOutcome.changed o v, st, tr) →
      (load_state store).last_summary_day ≠ some today →
      (run_daily_summary cfg st today false).1 = SummaryOutcome.skippedChangesOccurred ∧
      ∀ s2, (run_daily_summary cfg st today false).2.1 = some s2 → s2.changes_today = false) := by
  constructor
  · intro hc hguard
    refine ⟨?_, rfl⟩
    unfold run_daily_summary
    rw [if_neg hguard, if_pos hc]
  · intro fetched selectText hashFn now o v st tr hchk hday
    have hst := run_check_changed_state cfg store fetched selectText hashFn now o v st tr hchk
    subst hst
    have hrds : run_daily_summary cfg
        (some ⟨some v, some (hashFn v), some now, true, (load_state store).last_summary_day⟩)
        today false =
        (SummaryOutcome.skippedChangesOccurred,
         some ⟨some v, some (hashFn v), some now, false, some today⟩,
         [Event.loadState,
          Event.logLine "Changes occurred today; no \x27no changes detected\x27 email needed.",
          Event.saveState ⟨some v, some (hashFn v), some now, false, some today⟩]) := by
      unfold run_daily_summary
      rw [if_neg (fun hc => hday hc.1)]
      by_cases hcc : (load_state (some ⟨some v, some (hashFn v), some now, true,
          (load_state store).last_summary_day⟩)).changes_today = true
      · rw [if_pos hcc]
        rfl
      · exact absurd rfl hcc
    constructor
    · rw [hrds]
    · intro s2 hs2
      rw [hrds] at hs2
      simp only [Option.some.injEq] at hs2
      rw [← hs2]

/-- C6 witness: a concrete Check that reports Changed followed by a
DailySummary on the same day. -/
theorem daily_summary_skip_witness :
    ((load_state (some ⟨some "March", some "March", some "t", true, none⟩)).changes_today = true) ∧
    run_daily_summary cfg1 (some ⟨some "March", some "March", some "t", true, none⟩)
        "2025-04-01" false =
      (SummaryOutcome.skippedChangesOccurred,
       some ⟨some "March", some "March", some "t", false, some "2025-04-01"⟩,
       [Event.loadState,
        Event.logLine "Changes occurred today; no \x27no changes detected\x27 email needed.",
        Event.saveState ⟨some "March", some "March", some "t", false, some "2025-04-01"⟩]) ∧
    run_check cfg1 (some st1) (Except.ok "<html></html>") sel1 hash1 "T" =
      Except.ok (CheckOutcome.changed (some "March") "April",
        some ⟨some "April", some "April", some "T", true, none⟩,
        [Event.loadState,
         Event.genPdf (some "March") "April" "http://example.com",
         Event.saveState ⟨some "April", some "April", some "T", true, none⟩,
         Event.sendEmail "Change detected"
           (changeBody "http://example.com" (some "March") "April" "T") true,
         Event.logLine ("CHANGE detected. Old: " ++ pyStr (some "March") ++ " -> New: " ++
           "April" ++ ". PDF: " ++ pdfName "T")]) ∧
    (run_daily_summary cfg1 (some ⟨some "April", some "April", some "T", true, none⟩)
      "2025-04-01" false).1 = SummaryOutcome.skippedChangesOccurred ∧
    (∀ s2, (run_daily_summary cfg1 (some ⟨some "April", some "April", some "T", true, none⟩)
      "2025-04-01" false).2.1 = some s2 → s2.changes_today = false) :=
  ⟨by decide,
    ((daily_summary_skip_on_changes cfg1
        (some ⟨some "March", some "March", some "t", true, none⟩) "2025-04-01" false).1
      (by decide) (by decide)).1,
    rfl,
    ((daily_summary_skip_on_changes cfg1 (some st1) "2025-04-01" false).2
      (Except.ok "<html></html>") sel1 hash1 "T" (some "March") "April"
      (some ⟨some "April", some "April", some "T", true, none⟩) _ rfl (by decide)).1,
    ((daily_summary_skip_on_changes cfg1 (some st1) "2025-04-01" false).2
      (Except.ok "<html></html>") sel1 hash1 "T" (some "March") "April"
      (some ⟨some "April", some "April", some "T", true, none⟩) _ rfl (by decide)).2⟩

/-- C7 counterexample: the Sent path of DailySummary both saves state and
delivers a notification, but the delivery attempt (trace position 1) precedes
the save (trace position 3), so the claimed persist-before-delivery order is
violated by this invocation. -/
theorem summary_delivery_before_persist_cex :
    run_daily_summary ⟨"http://example.com", "#month", none⟩ none "2025-01-01" false =
      (SummaryOutcome.sent, some ⟨none, none, none, false, some "2025-01-01"⟩,
       [Event.loadState,
        Event.sendEmail "No changes detected" (summaryBody "2025-01-01" "http://example.com") false,
        Event.logLine "Daily summary sent: No changes detected.",
        Event.saveState ⟨none, none, none, false, some "2025-01-01"⟩]) ∧
    [Event.loadState,
     Event.sendEmail "No changes detected" (summaryBody "2025-01-01" "http://example.com") false,
     Event.logLine "Daily summary sent: No changes detected.",
     Event.saveState ⟨none, none, none, false, some "2025-01-01"⟩].any isSave = true ∧
    [Event.loadState,
     Event.sendEmail "No changes detected" (summaryBody "2025-01-01" "http://example.com") false,
     Event.logLine "Daily summary sent: No changes detected.",
     Event.saveState ⟨none, none, none, false, some "2025-01-01"⟩].any isNotify = true ∧
    ¬ notifyAfterSave
      [Event.loadState,
       Event.sendEmail "No changes detected" (summaryBody "2025-01-01" "http://example.com") false,
       Event.logLine "Daily summary sent: No changes detected.",
       Event.saveState ⟨none, none, none, false, some "2025-01-01"⟩] :=
  ⟨rfl, rfl, rfl, by decide⟩

/-- C7 amended: Check persists before it delivers (every delivery attempt in
a check trace is preceded by a save), and DailySummary delivers nothing
except on its Sent path, where the delivery attempt comes before the save. -/
theorem persist_delivery_order
    (cfg : Config) (store : Option MonitorState) :
    (∀ fetched selectText hashFn now r,
      run_check cfg store fetched selectText hashFn now = Except.ok r →
      notifyAfterSave r.2.2) ∧
    (∀ today force,
      ((run_daily_summary cfg store today force).1 ≠ SummaryOutcome.sent →
        (run_daily_summary cfg store today force).2.2.any isNotify = false) ∧
      ((run_daily_summary cfg store today force).1 = SummaryOutcome.sent →
        ∃ i j : Fin (run_daily_summary cfg store today force).2.2.length,
          i.val < j.val ∧
          isNotify ((run_daily_summary cfg store today force).2.2.get i) = true ∧
          isSave ((run_daily_summary cfg store today force).2.2.get j) = true)) := by
  constructor
  · intro fetched selectText hashFn now r h
    by_cases hu : cfg.url = ""
    · unfold run_check at h
      rw [if_pos hu] at h
      cases h
    · unfold run_check at h
      rw [if_neg hu] at h
      cases fetched with
      | error e =>
        simp only [Except.ok.injEq] at h
        rw [← h]
        exact notifyAfterSave_of_no_notify _ rfl
      | ok html =>
        cases hev : extract_value cfg selectText html with
        | error ex =>
          simp only [hev, Except.ok.injEq] at h
          rw [← h]
          exact notifyAfterSave_of_no_notify _ rfl
        | ok cv =>
          simp only [hev] at h
          by_cases hh : (load_state store).last_value_hash = some (hashFn cv)
          · rw [if_pos hh] at h
            simp only [Except.ok.injEq] at h
            rw [← h]
            exact notifyAfterSave_of_no_notify _ rfl
          · rw [if_neg hh] at h
            simp only [Except.ok.injEq] at h
            rw [← h]
            exact notifyAfterSave_changed_trace _ _ _ _ _ _ _ _
  · intro today force
    by_cases hguard : (load_state store).last_summary_day = some today ∧ force = false
    · constructor
      · intro _
        unfold run_daily_summary
        rw [if_pos hguard]
        rfl
      · intro h
        unfold run_daily_summary at h
        rw [if_pos hguard] at h
        cases h
    · by_cases hc : (load_state store).changes_today
      · constructor
        · intro _
          unfold run_daily_summary
          rw [if_neg hguard, if_pos hc]
          rfl
        · intro h
          unfold run_daily_summary at h
          rw [if_neg hguard, if_pos hc] at h
          cases h
      · constructor
        · intro h
          exfalso
          apply h
          unfold run_daily_summary
          rw [if_neg hguard, if_neg hc]
        · intro _
          have htr : (run_daily_summary cfg store today force).2.2 =
              [Event.loadState,
               Event.sendEmail "No changes detected" (summaryBody today cfg.url) false,
               Event.logLine "Daily summary sent: No changes detected.",
               Event.saveState ⟨(load_state store).last_value, (load_state store).last_value_hash,
                 (load_state store).last_change_ts, false, some today⟩] := by
            unfold run_daily_summary
            rw [if_neg hguard, if_neg hc]
          refine ⟨⟨1, ?_⟩, ⟨3, ?_⟩, ?_, ?_, ?_⟩
          · rw [htr]
            simp
          · rw [htr]
            simp
          · exact Nat.lt_of_sub_eq_succ rfl
          · simp [htr, isNotify]
          · simp [htr, isSave]

/-- C7 amended witness: the order facts at a concrete change-detecting check
and a concrete Sent summary. -/
theorem persist_delivery_order_witness :
    notifyAfterSave [Event.loadState,
      Event.genPdf (some "March") "April" "http://example.com",
      Event.saveState ⟨some "April", some "April", some "T", true, none⟩,
      Event.sendEmail "Change detected"
        (changeBody "http://example.com" (some "March") "April" "T") true,
      Event.logLine ("CHANGE detected. Old: " ++ pyStr (some "March") ++ " -> New: " ++
        "April" ++ ". PDF: " ++ pdfName "T")] ∧
    (∃ i j : Fin (run_daily_summary cfg1 (some st1) "2025-04-01" false).2.2.length,
      i.val < j.val ∧
      isNotify ((run_daily_summary cfg1 (some st1) "2025-04-01" false).2.2.get i) = true ∧
      isSave ((run_daily_summary cfg1 (some st1) "2025-04-01" false).2.2.get j) = true) :=
  ⟨(persist_delivery_order cfg1 (some st1)).1 (Except.ok "<html></html>") sel1 hash1 "T"
      (CheckOutcome.changed (some "March") "April",
        some ⟨some "April", some "April", some "T", true, none⟩,
        [Event.loadState,
         Event.genPdf (some "March") "April" "http://example.com",
         Event.saveState ⟨some "April", some "April", some "T", true, none⟩,
         Event.sendEmail "Change detected"
           (changeBody "http://example.com" (some "March") "April" "T") true,
         Event.logLine ("CHANGE detected. Old: " ++ pyStr (some "March") ++ " -> New: " ++
           "April" ++ ". PDF: " ++ pdfName "T")]) rfl,
    ((persist_delivery_order cfg1 (some st1)).2 "2025-04-01" false).2 rfl⟩

/-- C8 counterexample: with a URL configured but neither extraction rule set,
the check invocation does not abort: it reads the persisted state (the trace
begins with the load) and returns normally with exit status 0, against the
claimed fatal ConfigurationError before any state access with non-zero
status. -/
theorem missing_rule_not_fatal_cex :
    run_check ⟨"http://example.com", "", none⟩ none (Except.ok "<html></html>")
        (fun _ _ => none) (fun s => s) "2025-01-01T00:00:00Z" =
      Except.ok (CheckOutcome.extractionFailed
          (CheckFailure.extractFailure ExtractErr.noRuleConfigured), none,
        [Event.loadState,
         Event.logLine ("ERROR during fetch/extract: " ++
           extractErrMsg ExtractErr.noRuleConfigured)]) ∧
    checkExitCode (run_check ⟨"http://example.com", "", none⟩ none (Except.ok "<html></html>")
        (fun _ _ => none) (fun s => s) "2025-01-01T00:00:00Z") = 0 :=
  ⟨rfl, rfl⟩

/-- C8 amended: a missing target URL is the only fatal configuration error:
it aborts via SystemExit (exit status 1) before any effect, while a missing
extraction rule is detected only inside extract_value after the state was
loaded, is caught, and the invocation returns normally with exit status 0
reporting an extraction failure. -/
theorem config_error_fatal_only_missing_url
    (cfg : Config) (store : Option MonitorState) (fetched : Except String String)
    (selectText : String → String → Option String) (hashFn : String → String) (now : String) :
    (cfg.url = "" →
      run_check cfg store fetched selectText hashFn now =
        Except.error "MONITOR_URL is required." ∧
      checkExitCode (run_check cfg store fetched selectText hashFn now) = 1) ∧
    (∀ html, cfg.url ≠ "" → cfg.cssSelector = "" → cfg.regexCapture = none →
      run_check cfg store (Except.ok html) selectText hashFn now =
        Except.ok (CheckOutcome.extractionFailed
            (CheckFailure.extractFailure ExtractErr.noRuleConfigured), store,
          [Event.loadState, Event.logLine ("ERROR during fetch/extract: " ++
            extractErrMsg ExtractErr.noRuleConfigured)]) ∧
      checkExitCode (run_check cfg store (Except.ok html) selectText hashFn now) = 0) := by
  constructor
  · intro h
    constructor
    · unfold run_check
      rw [if_pos h]
    · unfold run_check
      rw [if_pos h]
      rfl
  · intro html hurl hcss hreg
    have hev : extract_value cfg selectText html = Except.error ExtractErr.noRuleConfigured := by
      unfold extract_value
      rw [if_neg (fun hne => hne hcss), hreg]
    constructor
    · unfold run_check
      rw [if_neg hurl]
      simp only [hev]
    · unfold run_check
      rw [if_neg hurl]
      simp only [hev]
      rfl

/-- C8 witness: a concrete invocation with no URL aborts with status 1, and a
concrete invocation with a URL but no rule returns normally with status 0
after loading state. -/
theorem config_error_witness :
    run_check ⟨"", "#month", none⟩ (some st1) (Except.ok "<html></html>") sel1 hash1 "T" =
      Except.error "MONITOR_URL is required." ∧
    checkExitCode (run_check ⟨"", "#month", none⟩ (some st1) (Except.ok "<html></html>")
      sel1 hash1 "T") = 1 ∧
    run_check ⟨"http://example.com", "", none⟩ (some st1) (Except.ok "<html></html>")
        sel1 hash1 "T" =
      Except.ok (CheckOutcome.extractionFailed
          (CheckFailure.extractFailure ExtractErr.noRuleConfigured), some st1,
        [Event.loadState, Event.logLine ("ERROR during fetch/extract: " ++
          extractErrMsg ExtractErr.noRuleConfigured)]) ∧
    checkExitCode (run_check ⟨"http://example.com", "", none⟩ (some st1)
      (Except.ok "<html></html>") sel1 hash1 "T") = 0 :=
  ⟨((config_error_fatal_only_missing_url ⟨"", "#month", none⟩ (some st1)
      (Except.ok "<html></html>") sel1 hash1 "T").1 rfl).1,
   ((config_error_fatal_only_missing_url ⟨"", "#month", none⟩ (some st1)
      (Except.ok "<html></html>") sel1 hash1 "T").1 rfl).2,
   ((config_error_fatal_only_missing_url ⟨"http://example.com", "", none⟩ (some st1)
      (Except.ok "<html></html>") sel1 hash1 "T").2 "<html></html>"
      (by decide) rfl rfl).1,
   ((config_error_fatal_only_missing_url ⟨"http://example.com", "", none⟩ (some st1)
      (Except.ok "<html></html>") sel1 hash1 "T").2 "<html></html>"
      (by decide) rfl rfl).2⟩

/-- C9 counterexample: extraction does not require exactly one capture group:
a pattern declaring two capture groups is accepted and its extraction
succeeds, returning group 1. -/
theorem two_capture_groups_accepted_cex :
    countGroups (Regex.seq (Regex.group 1 (Regex.char 'a')) (Regex.group 2 (Regex.char 'b')))
      = 2 ∧
    extract_value ⟨"http://example.com", "",
        some (Regex.seq (Regex.group 1 (Regex.char 'a')) (Regex.group 2 (Regex.char 'b')))⟩
      (fun _ _ => none) "ab" = Except.ok "a" :=
  ⟨rfl, rfl⟩

/-- C9 amended: pattern extraction searches with IGNORECASE (the search
result is invariant under case folding of the content) and DOTALL (the dot
matches every character, newline included, unlike without the flag); it
requires capture group 1 to exist and capture non-emptily — patterns with
additional groups are accepted with the extra groups ignored — failing when
there is no match or group 1 is empty, and otherwise returns group 1
stripped of surrounding whitespace. -/
theorem pattern_extraction_behavior :
    (∀ (u : String) (pat : Regex) (html : String)
        (selectText : String → String → Option String),
      reSearch true true pat html.data = none →
      extract_value ⟨u, "", some pat⟩ selectText html = Except.error ExtractErr.regexNoGroup) ∧
    (∀ (u : String) (pat : Regex) (html : String)
        (selectText : String → String → Option String) (gs : List (Nat × List Char)),
      reSearch true true pat html.data = some gs → getGroup gs 1 = some [] →
      extract_value ⟨u, "", some pat⟩ selectText html = Except.error ExtractErr.regexNoGroup) ∧
    (∀ (u : String) (pat : Regex) (html : String)
        (selectText : String → String → Option String) (gs : List (Nat × List Char))
        (w : List Char),
      reSearch true true pat html.data = some gs → getGroup gs 1 = some w → w ≠ [] →
      extract_value ⟨u, "", some pat⟩ selectText html = Except.ok (pyStrip (String.mk w))) ∧
    (∀ (u : String) (pat : Regex) (html : String)
        (selectText : String → String → Option String) (v : String),
      extract_value ⟨u, "", some pat⟩ selectText html = Except.ok v →
      ∃ gs w, reSearch true true pat html.data = some gs ∧ getGroup gs 1 = some w ∧
        w ≠ [] ∧ v = pyStrip (String.mk w)) ∧
    (∀ (pat : Regex) (s t : List Char), lowEq s t →
      (reSearch true true pat s).isSome = (reSearch true true pat t).isSome) ∧
    (∀ (c : Char) (rest : List Char),
      matchRe true true Regex.dot (c :: rest) = some (rest, [])) ∧
    (∀ (c : Char) (rest : List Char),
      matchRe true false Regex.dot ('\n' :: rest) = none ∧
      (c ≠ '\n' → matchRe true false Regex.dot (c :: rest) = some (rest, []))) := by
  refine ⟨?_, ?_, ?_, ?_, reSearch_lowEq, ?_, ?_⟩
  · intro u pat html selectText hs
    simp [extract_value, hs]
  · intro u pat html selectText gs hs hg
    simp [extract_value, hs, hg]
  · intro u pat html selectText gs w hs hg hw
    simp [extract_value, hs, hg, hw]
  · intro u pat html selectText v h
    cases hs : reSearch true true pat html.data with
    | none => simp [extract_value, hs] at h
    | some gs =>
      cases hg : getGroup gs 1 with
      | none => simp [extract_value, hs, hg] at h
      | some w =>
        by_cases hw : w = []
        · subst hw
          simp [extract_value, hs, hg] at h
        · simp [extract_value, hs, hg, hw] at h
          exact ⟨gs, w, rfl, hg, hw, h.symm⟩
  · intro c rest
    simp [matchRe]
  · intro c rest
    refine ⟨by simp [matchRe], fun hc => by simp [matchRe, hc]⟩

/-- C9 amended witness: the behavior facts at concrete patterns and
contents, including a case-folded match. -/
theorem pattern_extraction_witness :
    extract_value ⟨"http://example.com", "", some (Regex.group 1 (Regex.char 'a'))⟩
      (fun _ _ => none) "b" = Except.error ExtractErr.regexNoGroup ∧
    extract_value ⟨"http://example.com", "", some (Regex.group 1 (Regex.char 'a'))⟩
      (fun _ _ => none) "xa" = Except.ok (pyStrip (String.mk ['a'])) ∧
    (reSearch true true (Regex.char 'a') "A".data).isSome =
      (reSearch true true (Regex.char 'a') "a".data).isSome ∧
    matchRe true true Regex.dot ('\n' :: []) = some ([], []) :=
  ⟨pattern_extraction_behavior.1 "http://example.com" (Regex.group 1 (Regex.char 'a')) "b"
      (fun _ _ => none) rfl,
   pattern_extraction_behavior.2.2.1 "http://example.com" (Regex.group 1 (Regex.char 'a')) "xa"
      (fun _ _ => none) [(1, ['a'])] ['a'] rfl rfl (by decide),
   pattern_extraction_behavior.2.2.2.2.1 (Regex.char 'a') "A".data "a".data
      (by decide : "A".data.map Char.toLower = "a".data.map Char.toLower),
   pattern_extraction_behavior.2.2.2.2.2.1 '\n' []⟩

/-- C10: a Pattern whose group 1 captures a non-empty whitespace-only string
passes the pre-strip emptiness check and extraction returns the empty
string, while the Selector variant can never return an empty value. -/
theorem whitespace_capture_empty_selector_nonempty :
    reSearch true true (Regex.group 1 (Regex.char ' ')) " ".data = some [(1, [' '])] ∧
    ([' '] : List Char) ≠ [] ∧
    extract_value ⟨"http://example.com", "", some (Regex.group 1 (Regex.char ' '))⟩
      (fun _ _ => none) " " = Except.ok "" ∧
    (∀ (cfg : Config) (selectText : String → String → Option String) (html v : String),
      cfg.cssSelector ≠ "" → extract_value cfg selectText html = Except.ok v → v ≠ "") := by
  refine ⟨rfl, by decide, rfl, ?_⟩
  intro cfg selectText html v hcss h
  unfold extract_value at h
  rw [if_pos hcss] at h
  cases ho : selectText cfg.cssSelector html with
  | none =>
    rw [ho] at h
    exact Except.noConfusion h
  | some value =>
    rw [ho] at h
    have h2 : (if value = "" then
        Except.error (ExtractErr.selectorEmptyText cfg.cssSelector)
      else Except.ok value) = Except.ok v := h
    by_cases hv : value = ""
    · rw [if_pos hv] at h2
      exact Except.noConfusion h2
    · rw [if_neg hv] at h2
      simp only [Except.ok.injEq] at h2
      rw [← h2]
      exact hv

/-- C10 witness: the selector-variant non-emptiness at a concrete selector
configuration and oracle. -/
theorem whitespace_capture_witness :
    (cfg1.cssSelector ≠ "") ∧
    extract_value cfg1 sel1 "<html></html>" = Except.ok "April" ∧
    ("April" : String) ≠ "" :=
  ⟨by decide, rfl,
    whitespace_capture_empty_selector_nonempty.2.2.2 cfg1 sel1 "<html></html>" "April"
      (by decide) rfl⟩

end Monitor
